import Mathlib

/-!
Shallow embedding of `src/train.py` (the ABDNMT-RNMT training driver).

Python dictionaries and `argparse.Namespace` attribute sets are embedded as
ordered association lists.  External collaborators (torch tensors, the
criterion, the optimizer, the lunas iterator library) are oracles passed in as
parameters; pieces of this repository that are not under `src/` (the
`state.State` progress counters, the `thseq.utils.meters` meter classes) are
modelled from the specification, as noted on each definition.
-/

/-- A Python dict lookup (`d[k]`, `getattr(ns, k)`): the first binding of the
key, if any. -/
def dict_get {α : Type} : List (String × α) → String → Option α
  | [], _ => none
  | (k1, v1) :: rest, k => if k1 = k then some v1 else dict_get rest k

/-- A Python dict assignment (`d[k] = v`, `setattr(ns, k, v)`): replace the
binding when the key is present, append it otherwise. -/
def dict_set {α : Type} : List (String × α) → String → α → List (String × α)
  | [], k, v => [(k, v)]
  | (k1, v1) :: rest, k, v =>
    if k1 = k then (k, v) :: rest else (k1, v1) :: dict_set rest k v

/-- Python `dict.update`: assign every binding of `upd` into `d`, in order. -/
def dict_update {α : Type} (d upd : List (String × α)) : List (String × α) :=
  upd.foldl (fun acc p => dict_set acc p.1 p.2) d

/-- A Python attribute value of a configuration namespace; `none` is Python
`None`, `some n` any non-`None` value. -/
abbrev PyVal := Option Nat

/-- The attribute dictionary (`ns.__dict__`) of an `argparse.Namespace`. -/
abbrev PyNamespace := List (String × PyVal)

/-- The `for k, v in config_from.__dict__.items()` loop of `override`
(`src/train.py` lines 52-61).  `config_to` here is already the deep copy made
on line 41; `Except.error ()` is the `AttributeError` that
`getattr(config_to, k)` raises when `config_to` lacks the key. -/
def override_merge (config_to : PyNamespace) (items : List (String × PyVal))
    (only_override_null : Bool) : Except Unit PyNamespace :=
  match items with
  | [] => Except.ok config_to
  | (k, v) :: rest =>
    match v with
    | none => override_merge config_to rest only_override_null
    | some w =>
      if only_override_null then
        match dict_get config_to k with
        | none => Except.error ()
        | some cur =>
          if cur = none then override_merge (dict_set config_to k (some w)) rest only_override_null
          else override_merge config_to rest only_override_null
      else override_merge (dict_set config_to k (some w)) rest only_override_null

/-- `override(config_to, config_from, only_override_null)` from `src/train.py`
lines 40-62, value-level: both arguments may be Python `None` (an
`argparse.Namespace` object is always truthy, so `if not config_from` tests
exactly for `None`). -/
def override (config_to config_from : Option PyNamespace) (only_override_null : Bool) :
    Except Unit (Option PyNamespace) :=
  match config_from with
  | none => Except.ok config_to
  | some cfrom =>
    match config_to with
    | none => Except.ok (some cfrom)
    | some cto => (override_merge cto cfrom only_override_null).map some

/-- A heap of `argparse.Namespace` objects, for the aliasing behaviour of
`override`: addresses below `next` are allocated. -/
structure Heap where
  store : Nat → Option PyNamespace
  next : Nat

/-- Write a namespace in place at an existing address (`setattr` mutates the
object). -/
def heap_write (h : Heap) (a : Nat) (ns : PyNamespace) : Heap :=
  { h with store := fun b => if b = a then some ns else h.store b }

/-- Allocate a fresh namespace object (what `copy.deepcopy` does). -/
def heap_alloc (h : Heap) (ns : PyNamespace) : Heap × Nat :=
  ({ store := fun b => if b = h.next then some ns else h.store b, next := h.next + 1 },
   h.next)

/-- The `override` merge loop at heap level: all `setattr` writes target the
single address `a` (the deep copy of `config_to`). -/
def override_loop_heap (h : Heap) (a : Nat) (items : List (String × PyVal))
    (only_override_null : Bool) : Except Unit Heap :=
  match items with
  | [] => Except.ok h
  | (k, v) :: rest =>
    match v with
    | none => override_loop_heap h a rest only_override_null
    | some _ =>
      if only_override_null then
        match dict_get ((h.store a).getD []) k with
        | none => Except.error ()
        | some cur =>
          if cur = none then
            override_loop_heap (heap_write h a (dict_set ((h.store a).getD []) k v)) a rest
              only_override_null
          else override_loop_heap h a rest only_override_null
      else
        override_loop_heap (heap_write h a (dict_set ((h.store a).getD []) k v)) a rest
          only_override_null

/-- `override` at heap level (`src/train.py` lines 40-62): lines 41-42 deep
copy `config_to` then `config_from` (allocating fresh addresses; deep-copying
Python `None` allocates nothing), lines 44-47 return early on `None` inputs,
and the loop mutates only the fresh copy of `config_to`. -/
def override_heap (h : Heap) (a_to a_from : Option Nat) (only_override_null : Bool) :
    Except Unit (Heap × Option Nat) :=
  match a_to, a_from with
  | none, none => Except.ok (h, none)
  | some a, none =>
    let p := heap_alloc h ((h.store a).getD [])
    Except.ok (p.1, some p.2)
  | none, some b =>
    let p := heap_alloc h ((h.store b).getD [])
    Except.ok (p.1, some p.2)
  | some a, some b =>
    let p := heap_alloc h ((h.store a).getD [])
    let q := heap_alloc p.1 ((p.1.store b).getD [])
    (override_loop_heap q.1 p.2 ((q.1.store q.2).getD []) only_override_null).map
      (fun h3 => (h3, some p.2))

/-- The Python exceptions that `src/train.py` distinguishes: `RuntimeError`
(with or without the substring `out of memory` in its message),
`OverflowError`, and everything else. -/
inductive PyExn where
  | runtimeError (msg_has_oom : Bool)
  | overflowError
  | otherError
deriving DecidableEq

/-- The opaque loss tensor returned by the criterion. -/
inductive LossTensor where
  | mk
deriving DecidableEq

/-- A Python logging-output dict (`str` keys, numeric values). -/
abbrev LogOut := List (String × Int)

/-- The `sample` dict built by the control loop (`src/train.py` lines 521-525):
the fields `Trainer._forward` reads are `sample['ntokens']` and
`sample['target'].size(0)`. -/
structure Sample where
  ntokens : Nat
  nsentences : Nat
deriving DecidableEq

/-- Outcome of one call `self.criterion(self.model, sample)`: either
`(loss, sample_size, logging_output)` (the loss tensor being opaque), or an
exception. -/
inductive CritResult where
  | ok (sample_size : Nat) (logging_output : LogOut)
  | raise (e : PyExn)

/-- The criterion collaborator: per-sample computation plus the class-level
`aggregate_logging_outputs` and `grad_denom` reductions
(`src/train.py` lines 103, 217-218). -/
structure CriterionOps where
  compute : Sample → CritResult
  aggregate : List LogOut → LogOut
  grad_denom : List Nat → Nat

/-- Outcome of `loss.backward()` on this call (an oracle for torch). -/
inductive BackwardBehavior where
  | ok
  | raise (e : PyExn)

/-- Outcome of the guarded update block (`scale_clip_grad_`, `optimizer.step`,
`optimizer.zero_grad`, meter updates; `src/train.py` lines 220-237): normal
completion hands back the gradient norm that `clip_grad_norm_` returned. -/
inductive UpdateBehavior where
  | ok (grad_norm : Option ℚ)
  | raiseOverflow
  | raiseOther (e : PyExn)

/-- The base logging output built on `src/train.py` lines 94-97. -/
def base_logging_output (sample : Option Sample) : LogOut :=
  [("ntokens", match sample with | some s => (s.ntokens : Int) | none => 0),
   ("nsentences", match sample with | some s => (s.nsentences : Int) | none => 0)]

/-- `Trainer._forward` (`src/train.py` lines 85-112) in training or evaluation
mode: result is `(loss, sample_size, logging_output, oom)`.  Only a
`RuntimeError` whose message contains `out of memory`, and only when not
evaluating, is recovered (one OOM event, `loss = None`); every other exception
propagates. -/
def Trainer.forward (compute : Sample → CritResult) (sample : Option Sample) (eval : Bool) :
    Except PyExn (Option LossTensor × Nat × LogOut × Nat) :=
  let logging_output := base_logging_output sample
  match sample with
  | none => Except.ok (none, 0, logging_output, 0)
  | some s =>
    match compute s with
    | CritResult.ok sample_size logging_output_ =>
      Except.ok (some LossTensor.mk, sample_size, dict_update logging_output logging_output_, 0)
    | CritResult.raise e =>
      match e, eval with
      | PyExn.runtimeError true, false => Except.ok (none, 0, logging_output, 1)
      | _, _ => Except.error e

/-- `Trainer._backward` (`src/train.py` lines 114-127): skipped entirely when
`loss` is `None`; a `RuntimeError` mentioning `out of memory` is recovered by
recording one OOM event and calling `model.zero_grad()` (the returned flag);
anything else propagates. -/
def Trainer.backward (beh : BackwardBehavior) (loss : Option LossTensor) :
    Except PyExn (Nat × Bool) :=
  match loss with
  | none => Except.ok (0, false)
  | some _ =>
    match beh with
    | BackwardBehavior.ok => Except.ok (0, false)
    | BackwardBehavior.raise e =>
      match e with
      | PyExn.runtimeError true => Except.ok (1, true)
      | _ => Except.error e

/-- `Trainer._buffered_stats` (`src/train.py` line 74): four parallel lists
keyed `sample_sizes`, `logging_outputs`, `ooms_fwd`, `ooms_bwd`. -/
structure BufferedStats where
  sample_sizes : List Nat
  logging_outputs : List LogOut
  ooms_fwd : List Nat
  ooms_bwd : List Nat
deriving DecidableEq

/-- The cleared buffer (`clear_buffered_stats`, `src/train.py` line 129). -/
def emptyBuffer : BufferedStats :=
  { sample_sizes := [], logging_outputs := [], ooms_fwd := [], ooms_bwd := [] }

/-- The four appends of `src/train.py` lines 196-199. -/
def pushEntry (b : BufferedStats) (ss : Nat) (lo : LogOut) (oom_fwd oom_bwd : Nat) :
    BufferedStats :=
  { sample_sizes := b.sample_sizes ++ [ss],
    logging_outputs := b.logging_outputs ++ [lo],
    ooms_fwd := b.ooms_fwd ++ [oom_fwd],
    ooms_bwd := b.ooms_bwd ++ [oom_bwd] }

/-- Modelled from the spec: the meter statistics (`thseq.utils.meters` is not
under `src/`; per the spec meters are monotonic accumulators).  Each `_updates`
field counts calls that accumulate a statistic; starting the `wps` stopwatch is
tracked separately on `TrainerState` because it records a timestamp only. -/
structure Meters where
  wps_stops : Nat
  wps_tokens : Int
  gnorm_updates : Nat
  gnorm_sum : ℚ
  clip_updates : Nat
  clip_clipped : Nat
  oom_updates : Nat
  oom_sum : Nat
deriving DecidableEq

/-- The mutable state of a `Trainer` together with counters for the side
effects its methods perform on the collaborators (optimizer steps, gradient
zeroing, gradient rescale-and-clip calls, warnings logged). -/
structure TrainerState where
  buffer : BufferedStats
  meters : Meters
  wps_starts : Nat
  opt_steps : Nat
  opt_zero_grads : Nat
  model_zero_grads : Nat
  grad_scales : Nat
  warnings : Nat
deriving DecidableEq

/-- The parameter-update half of `Trainer.train_step` (`src/train.py` lines
201-241), entered with the current micro-batch already buffered.  The guard on
lines 208-211 compares `sum([1 for oom in ooms if oom > 0])` with
`len(logging_outputs)`; on total failure the buffer is dropped and `None`
returned.  Otherwise the logging outputs are aggregated, the gradient
denominator computed, and the guarded block runs: on `OverflowError` the
gradients are zeroed and a warning logged, after which line 239 still clears
the buffer and line 241 still returns the aggregated logging output. -/
def Trainer.update_phase (crit : CriterionOps) (upd : UpdateBehavior) (clip_norm : ℚ)
    (st : TrainerState) : Except PyExn (TrainerState × Option LogOut) :=
  if ((List.zipWith (fun a b => a + b) st.buffer.ooms_fwd st.buffer.ooms_bwd).filter
        (fun oom => decide (0 < oom))).length = st.buffer.logging_outputs.length then
    Except.ok ({ st with buffer := emptyBuffer }, none)
  else
    let ooms_fwd_total := st.buffer.ooms_fwd.foldl (fun a b => a + b) 0
    let ooms_bwd_total := st.buffer.ooms_bwd.foldl (fun a b => a + b) 0
    let agg_logging_output := crit.aggregate st.buffer.logging_outputs
    let grad_denom := crit.grad_denom st.buffer.sample_sizes
    match upd with
    | UpdateBehavior.raiseOther e => Except.error e
    | UpdateBehavior.raiseOverflow =>
      Except.ok ({ st with buffer := emptyBuffer,
                           opt_zero_grads := st.opt_zero_grads + 1,
                           warnings := st.warnings + 1 }, some agg_logging_output)
    | UpdateBehavior.ok grad_norm =>
      let _ := grad_denom
      let ntokens := (dict_get agg_logging_output "ntokens").getD 0
      let m0 := st.meters
      let m1 := { m0 with wps_stops := m0.wps_stops + 1, wps_tokens := m0.wps_tokens + ntokens }
      let m2 := match grad_norm with
        | some g =>
          { m1 with gnorm_updates := m1.gnorm_updates + 1,
                    gnorm_sum := m1.gnorm_sum + g,
                    clip_updates := m1.clip_updates + 1,
                    clip_clipped := m1.clip_clipped + (if clip_norm < g then 1 else 0) }
        | none => m1
      let m3 := { m2 with oom_updates := m2.oom_updates + 1,
                          oom_sum := m2.oom_sum + (ooms_fwd_total + ooms_bwd_total) }
      Except.ok ({ st with buffer := emptyBuffer,
                           meters := m3,
                           grad_scales := st.grad_scales + 1,
                           opt_steps := st.opt_steps + 1,
                           opt_zero_grads := st.opt_zero_grads + 1 }, some agg_logging_output)

/-- `Trainer.train_step` (`src/train.py` lines 186-243): start the `wps`
stopwatch, run forward and backward, append this micro-batch's
`(sample_size, logging_output, oom_fwd, oom_bwd)` to the buffer, then either
run the update phase (`update_params` true) or return `None` (buffering). -/
def Trainer.train_step (crit : CriterionOps) (bwd : BackwardBehavior) (upd : UpdateBehavior)
    (clip_norm : ℚ) (st : TrainerState) (sample : Option Sample) (update_params : Bool) :
    Except PyExn (TrainerState × Option LogOut) :=
  let st := { st with wps_starts := st.wps_starts + 1 }
  match Trainer.forward crit.compute sample false with
  | Except.error e => Except.error e
  | Except.ok (loss, sample_size, logging_output, oom_fwd) =>
    match Trainer.backward bwd loss with
    | Except.error e => Except.error e
    | Except.ok (oom_bwd, zeroed) =>
      let st := if zeroed then { st with model_zero_grads := st.model_zero_grads + 1 } else st
      let st := { st with warnings := st.warnings + oom_fwd + oom_bwd }
      let st := { st with buffer := pushEntry st.buffer sample_size logging_output oom_fwd oom_bwd }
      if update_params then Trainer.update_phase crit upd clip_norm st
      else Except.ok (st, none)

/-- Modelled from the spec: the Progress State owned by `state.State`
(`state.py` is not under `src/`): 0-based epoch, global step, and the ordered
validation-score list. -/
structure ProgressState where
  step : Nat
  epoch : Nat
  eval_scores : List ℚ
deriving DecidableEq

/-- Modelled from the spec: `state.increase_num_steps()` advances the global
step counter. -/
def increase_num_steps (ps : ProgressState) : ProgressState :=
  { ps with step := ps.step + 1 }

/-- Modelled from the spec: `state.increase_epoch()` advances the 0-based epoch
counter. -/
def increase_epoch (ps : ProgressState) : ProgressState :=
  { ps with epoch := ps.epoch + 1 }

/-- The caller's handling of the update branch's result (`src/train.py` lines
531-534): `if not log_output: continue`, i.e. a `None` or empty dict skips
`state.increase_num_steps()`; any non-empty dict advances the step counter. -/
def after_update_result (ps : ProgressState) (log_output : Option LogOut) : ProgressState :=
  if log_output.getD [] = [] then ps else increase_num_steps ps

/-- Per-call oracle outcomes of the collaborators (torch backward, the guarded
update block) plus the batch turned into a `sample` dict. -/
structure CallEnv where
  bwd : BackwardBehavior
  upd : UpdateBehavior
  sample : Sample

/-- One iteration of the batch loop body (`src/train.py` lines 526-534): if
`(state.step + 1) % args.accumulate > 0` the step only buffers (and the loop
`continue`s); otherwise the update step runs and, unless it returned a falsy
logging output, the global step counter is advanced. -/
def Trainer.loop_body (crit : CriterionOps) (accumulate : Nat) (clip_norm : ℚ) (env : CallEnv)
    (ps : ProgressState) (ts : TrainerState) : Except PyExn (ProgressState × TrainerState) :=
  if (ps.step + 1) % accumulate > 0 then
    match Trainer.train_step crit env.bwd env.upd clip_norm ts (some env.sample) false with
    | Except.error e => Except.error e
    | Except.ok (ts', _) => Except.ok (ps, ts')
  else
    match Trainer.train_step crit env.bwd env.upd clip_norm ts (some env.sample) true with
    | Except.error e => Except.error e
    | Except.ok (ts', log_output) => Except.ok (after_update_result ps log_output, ts')

/-- Iterate the loop body over a stream of batches. -/
def run_loop (crit : CriterionOps) (accumulate : Nat) (clip_norm : ℚ) :
    List CallEnv → ProgressState → TrainerState → Except PyExn (ProgressState × TrainerState)
  | [], ps, ts => Except.ok (ps, ts)
  | env :: rest, ps, ts =>
    match Trainer.loop_body crit accumulate clip_norm env ps ts with
    | Except.error e => Except.error e
    | Except.ok (ps', ts') => run_loop crit accumulate clip_norm rest ps' ts'

/-- `after_epoch_callback` (`src/train.py` lines 489-499): advance the epoch,
then, when the validation-score list is non-empty, call
`trainer.lr_step(state.epoch, -eval_score)` where
`eval_score = -state.eval_scores[-1]`.  The second component is the
`(epoch, metric)` pair handed to the learning-rate scheduler, if any. -/
def after_epoch_callback (ps : ProgressState) : ProgressState × Option (Nat × ℚ) :=
  let ps2 := increase_epoch ps
  match ps2.eval_scores.getLast? with
  | none => (ps2, none)
  | some s =>
    let eval_score := -s
    (ps2, some (ps2.epoch, -eval_score))

/-- The stopping-relevant configuration read by `main` (`src/train.py` lines
473-474 and 505-507). -/
structure StopConfig where
  min_lr : Option ℚ
  max_epoch : Option Nat
  max_step : Option Nat

/-- `args.max_epoch or math.inf` (`src/train.py` lines 473-474): a missing or
zero (falsy) configured bound becomes infinity. -/
def or_inf (x : Option Nat) : WithTop Nat :=
  match x with
  | none => ⊤
  | some 0 => ⊤
  | some n => (n : WithTop Nat)

/-- The `predicate` lambda handed to `iterator.while_true` (`src/train.py`
lines 505-507). -/
def continue_predicate (args : StopConfig) (lr : ℚ) (ps : ProgressState) : Bool :=
  (args.min_lr.isNone || decide (args.min_lr.getD 0 < lr)) &&
  decide ((ps.epoch : WithTop Nat) < or_inf args.max_epoch) &&
  decide ((ps.step : WithTop Nat) < or_inf args.max_step)

/-- The stopping predicate in the words of the claim: (no minimum-learning-rate
floor configured OR current learning rate strictly greater than the floor) AND
epoch below the (effective) max-epoch AND global step below the (effective)
max-step. -/
def continue_predicate_spec (args : StopConfig) (lr : ℚ) (ps : ProgressState) : Prop :=
  (args.min_lr = none ∨ ∃ floor, args.min_lr = some floor ∧ floor < lr) ∧
  (ps.epoch : WithTop Nat) < or_inf args.max_epoch ∧
  (ps.step : WithTop Nat) < or_inf args.max_step

/-- Modelled from the spec: the epoch driver `iterator.while_true` of the lunas
library (an external collaborator) re-evaluates its predicate before starting
each new epoch; `run_epoch` is the opaque body that consumes one epoch of
batches (possibly changing the learning rate). -/
def while_true_epochs (args : StopConfig)
    (run_epoch : ProgressState × ℚ → ProgressState × ℚ) :
    Nat → ProgressState × ℚ → ProgressState × ℚ
  | 0, s => s
  | fuel + 1, s =>
    if continue_predicate args s.2 s.1 then while_true_epochs args run_epoch fuel (run_epoch s)
    else s

/-- The outermost boundary (`src/train.py` lines 697-700): `main` either
returns or raises; `except Exception` logs the full traceback and falls off the
end of the script, so the interpreter exits normally.  Result: (process exit
status, whether a full trace was logged). -/
def top_level_main (outcome : Except PyExn Unit) : Nat × Bool :=
  match outcome with
  | Except.ok _ => (0, false)
  | Except.error _ => (0, true)

/-- A stage of the lunas reader pipeline built by `get_train_iterator`. -/
inductive Stage where
  | zipStage
  | selectStage
  | shuffleStage (shufsize : Int) (bufsize : Nat)
  | whereStage
deriving DecidableEq

/-- Whether a stage is a `Shuffle` reader. -/
def Stage.isShuffle : Stage → Bool
  | Stage.shuffleStage _ _ => true
  | _ => false

/-- The dataset-building half of `get_train_iterator` (`src/train.py` lines
301-329): zip the two text streams, map the encoding transform, insert a
`Shuffle` stage whenever `args.shuffle != 0` (with `args.shuffle` passed as the
window size), and append the length filter when limits are configured. -/
def build_train_dataset (shuffle : Int) (bufsize : Nat) (has_length_limit : Bool) : List Stage :=
  let ds := [Stage.zipStage, Stage.selectStage]
  let ds := if shuffle ≠ 0 then ds ++ [Stage.shuffleStage shuffle bufsize] else ds
  if has_length_limit then ds ++ [Stage.whereStage] else ds

/-- Fresh meters (all statistics zero). -/
def initMeters : Meters :=
  { wps_stops := 0, wps_tokens := 0, gnorm_updates := 0, gnorm_sum := 0,
    clip_updates := 0, clip_clipped := 0, oom_updates := 0, oom_sum := 0 }

/-- A freshly constructed `Trainer`. -/
def initTrainer : TrainerState :=
  { buffer := emptyBuffer, meters := initMeters, wps_starts := 0, opt_steps := 0,
    opt_zero_grads := 0, model_zero_grads := 0, grad_scales := 0, warnings := 0 }

/-- A fresh-run Progress State (epoch 0, step 0, no validation scores). -/
def initProgress : ProgressState :=
  { step := 0, epoch := 0, eval_scores := [] }

/-- A concrete criterion whose forward succeeds and whose aggregation returns a
non-empty dict, as every real criterion of the repository does (the caller
reads `log_output["per_word_loss"]` unconditionally on `src/train.py` line
536). -/
def critConst : CriterionOps :=
  { compute := fun _ => CritResult.ok 10 [("per_word_loss", 2)],
    aggregate := fun _ => [("ntokens", 5), ("per_word_loss", 2)],
    grad_denom := fun l => l.foldl (fun a b => a + b) 0 }

/-- A call whose forward and backward succeed and whose guarded update block
raises `OverflowError`. -/
def envOverflow : CallEnv :=
  { bwd := BackwardBehavior.ok, upd := UpdateBehavior.raiseOverflow, sample := ⟨5, 2⟩ }

/-- A call on which every collaborator succeeds. -/
def envPlain : CallEnv :=
  { bwd := BackwardBehavior.ok, upd := UpdateBehavior.ok (some 1), sample := ⟨5, 2⟩ }

/-- A two-namespace heap for exercising `override_heap`: address 0 holds the
`config_to` namespace, address 1 the `config_from` namespace. -/
def h0 : Heap :=
  { store := fun b =>
      if b = 0 then some [("a", some 1), ("b", none)]
      else if b = 1 then some [("a", none), ("b", some 5)]
      else none,
    next := 2 }

/-- The result `override_heap` produces on `h0` (used to state its frame
property on a concrete input). -/
def c10_heap_result : Heap × Option Nat :=
  match override_heap h0 (some 0) (some 1) false with
  | Except.ok p => p
  | Except.error _ => (h0, none)

/-- Concrete `config_to` for `override`. -/
def c10_to : PyNamespace := [("a", some 1), ("b", none)]

/-- Concrete `config_from` for `override`. -/
def c10_from : PyNamespace := [("a", none), ("b", some 5)]

/-- The namespace `override c10_to c10_from false` computes. -/
def c10_res : PyNamespace := [("a", some 1), ("b", some 5)]

/-- A criterion forward that raises a `RuntimeError` mentioning
`out of memory`. -/
def critOOM : Sample → CritResult := fun _ => CritResult.raise (PyExn.runtimeError true)

/-- A criterion forward that raises a non-OOM exception. -/
def critFatal : Sample → CritResult := fun _ => CritResult.raise PyExn.otherError

/-- A whole criterion whose forward always raises a non-OOM exception. -/
def critFatalOps : CriterionOps :=
  { compute := fun _ => CritResult.raise PyExn.otherError,
    aggregate := fun _ => [], grad_denom := fun _ => 0 }

/-- A trainer state whose accumulation buffer holds one micro-batch that
OOM'd in both phases (as buffer data). -/
def stOOMWindow : TrainerState :=
  { initTrainer with
    buffer := { sample_sizes := [0], logging_outputs := [base_logging_output (some ⟨5, 2⟩)],
                ooms_fwd := [1], ooms_bwd := [1] } }

/-- A trainer state whose buffer holds one successful micro-batch. -/
def stAfterOnePlain : TrainerState :=
  { initTrainer with buffer := pushEntry emptyBuffer 10 [("per_word_loss", 2)] 0 0 }

/-- The state and logging output a concrete buffering `train_step` call
produces from a fresh trainer. -/
def c9_step_result : TrainerState × Option LogOut :=
  match Trainer.train_step critConst BackwardBehavior.ok (UpdateBehavior.ok (some 1)) 1
      initTrainer (some ⟨5, 2⟩) false with
  | Except.ok p => p
  | Except.error _ => (initTrainer, none)

theorem except_map_ok {ε α β : Type} (f : α → β) (x : Except ε α) (b : β)
    (h : x.map f = Except.ok b) : ∃ a, x = Except.ok a ∧ b = f a := by
  cases x with
  | error e => simp [Except.map] at h
  | ok a => refine ⟨a, rfl, ?_⟩; simpa [Except.map] using h.symm

theorem dict_get_set_ne {α : Type} (d : List (String × α)) (k k1 : String) (v : α)
    (hne : k1 ≠ k) : dict_get (dict_set d k1 v) k = dict_get d k := by
  induction d with
  | nil => simp [dict_set, dict_get, hne]
  | cons p rest ih =>
    obtain ⟨ka, va⟩ := p
    by_cases hka : ka = k1
    · subst hka
      simp only [dict_set, if_pos rfl, dict_get, if_neg hne]
    · simp only [dict_set, if_neg hka, dict_get]
      by_cases hk : ka = k
      · simp [hk]
      · simp [if_neg hk, ih]

theorem pynamespace_get_none_not_mem {l : PyNamespace} {k : String}
    (hnd : (l.map Prod.fst).Nodup) (hget : dict_get l k = some none) :
    ∀ w : Nat, (k, some w) ∉ l := by
  induction l with
  | nil => simp
  | cons p rest ih =>
    obtain ⟨k1, v1⟩ := p
    intro w hmem
    rcases List.mem_cons.mp hmem with heq | hmem2
    · have h1 : k1 = k := (Prod.ext_iff.mp heq.symm).1
      have h2 : v1 = some w := (Prod.ext_iff.mp heq.symm).2
      subst h1
      subst h2
      simp [dict_get] at hget
    · by_cases hk1 : k1 = k
      · subst hk1
        have hnotin : k1 ∉ rest.map Prod.fst := (List.nodup_cons.mp hnd).1
        exact hnotin (List.mem_map.mpr ⟨(k1, some w), hmem2, rfl⟩)
      · rw [dict_get, if_neg hk1] at hget
        exact ih (List.nodup_cons.mp hnd).2 hget w hmem2

theorem override_merge_get_of_not_mem {items : List (String × PyVal)} {cto res : PyNamespace}
    {mode : Bool} {k : String}
    (hk : ∀ w : Nat, (k, some w) ∉ items)
    (h : override_merge cto items mode = Except.ok res) :
    dict_get res k = dict_get cto k := by
  induction items generalizing cto with
  | nil =>
    rw [override_merge] at h
    cases h
    rfl
  | cons p rest ih =>
    obtain ⟨k1, v1⟩ := p
    have hktail : ∀ w : Nat, (k, some w) ∉ rest := by
      intro w hw
      exact hk w (List.mem_cons_of_mem _ hw)
    cases v1 with
    | none =>
      rw [override_merge] at h
      exact ih hktail h
    | some w1 =>
      have hk1 : k1 ≠ k := by
        intro hcontra
        subst hcontra
        exact hk w1 (List.mem_cons_self _ _)
      rw [override_merge] at h
      cases mode with
      | false =>
        simp only [Bool.false_eq_true, if_false] at h
        rw [ih hktail h]
        exact dict_get_set_ne cto k k1 (some w1) hk1
      | true =>
        simp only [if_true] at h
        split at h
        · simp at h
        · rename_i cur hcur
          by_cases hc : cur = none
          · rw [if_pos hc] at h
            rw [ih hktail h]
            exact dict_get_set_ne cto k k1 (some w1) hk1
          · rw [if_neg hc] at h
            exact ih hktail h

theorem override_loop_heap_store_other {items : List (String × PyVal)} {h h2 : Heap} {a : Nat}
    {mode : Bool} (hok : override_loop_heap h a items mode = Except.ok h2) :
    ∀ b, b ≠ a → h2.store b = h.store b := by
  induction items generalizing h with
  | nil =>
    rw [override_loop_heap] at hok
    cases hok
    intro b _
    rfl
  | cons p rest ih =>
    obtain ⟨k, v⟩ := p
    intro b hb
    cases v with
    | none =>
      rw [override_loop_heap] at hok
      exact ih hok b hb
    | some w =>
      rw [override_loop_heap] at hok
      cases mode with
      | false =>
        simp only [Bool.false_eq_true, if_false] at hok
        rw [ih hok b hb]
        simp [heap_write, hb]
      | true =>
        simp only [if_true] at hok
        split at hok
        · simp at hok
        · rename_i cur hcur
          by_cases hc : cur = none
          · rw [if_pos hc] at hok
            rw [ih hok b hb]
            simp [heap_write, hb]
          · rw [if_neg hc] at hok
            exact ih hok b hb

/-- Claim C10: `override` operates on deep copies, leaving both of its input
namespaces unchanged on the heap, and every key whose value in `config_from`
is Python `None` keeps `config_to`'s value in the result, in both the
only-override-null and unconditional modes. -/
theorem c10_override_frame_and_null_keys :
    (∀ (h : Heap) (a_to a_from : Nat) (mode : Bool) (hres : Heap × Option Nat),
        a_to < h.next → a_from < h.next →
        override_heap h (some a_to) (some a_from) mode = Except.ok hres →
        hres.1.store a_to = h.store a_to ∧ hres.1.store a_from = h.store a_from)
  ∧ (∀ (cto cfrom : PyNamespace) (mode : Bool) (k : String) (res : PyNamespace),
        (cfrom.map Prod.fst).Nodup → dict_get cfrom k = some none →
        override (some cto) (some cfrom) mode = Except.ok (some res) →
        dict_get res k = dict_get cto k) := by
  constructor
  · intro h a_to a_from mode hres hto hfrom hok
    have hto1 : a_to ≠ h.next := Nat.ne_of_lt hto
    have hfrom1 : a_from ≠ h.next := Nat.ne_of_lt hfrom
    have hto2 : a_to ≠ h.next + 1 := by omega
    have hfrom2 : a_from ≠ h.next + 1 := by omega
    rw [override_heap] at hok
    simp only [heap_alloc] at hok
    obtain ⟨h3, hloop, hb⟩ := except_map_ok _ _ _ hok
    subst hb
    have hframe := override_loop_heap_store_other hloop
    constructor
    · rw [hframe a_to hto1]
      simp [if_neg hto1, if_neg hto2]
    · rw [hframe a_from hfrom1]
      simp [if_neg hfrom1, if_neg hfrom2]
  · intro cto cfrom mode k res hnd hget hok
    rw [override] at hok
    obtain ⟨res2, hmerge, hr⟩ := except_map_ok _ _ _ hok
    have hres2 : res2 = res := by
      simpa using hr.symm
    subst hres2
    exact override_merge_get_of_not_mem (pynamespace_get_none_not_mem hnd hget) hmerge

theorem c10_witness_concrete_override :
    c10_heap_result.1.store 0 = h0.store 0
  ∧ c10_heap_result.1.store 1 = h0.store 1
  ∧ dict_get c10_res "a" = dict_get c10_to "a" := by
  have hframe := c10_override_frame_and_null_keys.1 h0 0 1 false c10_heap_result
    (by decide) (by decide) rfl
  have hnull := c10_override_frame_and_null_keys.2 c10_to c10_from false "a" c10_res
    (by decide) rfl rfl
  exact ⟨hframe.1, hframe.2, hnull⟩

/-- Claim C7: a resource-exhaustion `RuntimeError` raised by the criterion
during the forward pass is swallowed in training mode (one OOM-forward event
recorded, `loss` set to null, base logging output kept), propagates in
evaluation mode, and every non-OOM exception propagates in both modes. -/
theorem c7_forward_oom_policy (compute : Sample → CritResult) (s : Sample) :
    (compute s = CritResult.raise (PyExn.runtimeError true) →
      Trainer.forward compute (some s) false =
        Except.ok (none, 0, base_logging_output (some s), 1) ∧
      Trainer.forward compute (some s) true =
        Except.error (PyExn.runtimeError true))
  ∧ (∀ e : PyExn, compute s = CritResult.raise e → e ≠ PyExn.runtimeError true →
      ∀ ev : Bool, Trainer.forward compute (some s) ev = Except.error e) := by
  constructor
  · intro hc
    constructor <;> simp [Trainer.forward, hc]
  · intro e hc hne ev
    cases e with
    | runtimeError b =>
      cases b with
      | true => exact absurd rfl hne
      | false => cases ev <;> simp [Trainer.forward, hc]
    | overflowError => cases ev <;> simp [Trainer.forward, hc]
    | otherError => cases ev <;> simp [Trainer.forward, hc]

theorem c7_witness_concrete_forward :
    Trainer.forward critOOM (some ⟨5, 2⟩) false =
      Except.ok (none, 0, base_logging_output (some ⟨5, 2⟩), 1)
  ∧ Trainer.forward critOOM (some ⟨5, 2⟩) true = Except.error (PyExn.runtimeError true)
  ∧ Trainer.forward critFatal (some ⟨5, 2⟩) false = Except.error PyExn.otherError := by
  refine ⟨?_, ?_, ?_⟩
  · exact ((c7_forward_oom_policy critOOM ⟨5, 2⟩).1 rfl).1
  · exact ((c7_forward_oom_policy critOOM ⟨5, 2⟩).1 rfl).2
  · exact (c7_forward_oom_policy critFatal ⟨5, 2⟩).2 PyExn.otherError rfl (by decide) false

theorem filter_pos_zip_len (l1 l2 : List Nat) (h1 : ∀ x ∈ l1, x = 1) (h2 : ∀ x ∈ l2, x = 1) :
    ((List.zipWith (fun a b => a + b) l1 l2).filter (fun oom => decide (0 < oom))).length
      = min l1.length l2.length := by
  induction l1 generalizing l2 with
  | nil => simp
  | cons a t ih =>
    cases l2 with
    | nil => simp
    | cons b t2 =>
      have ha : a = 1 := h1 a (List.mem_cons_self _ _)
      have hb2 : b = 1 := h2 b (List.mem_cons_self _ _)
      subst ha
      subst hb2
      have hrec := ih t2 (fun x hx => h1 x (List.mem_cons_of_mem _ hx))
        (fun x hx => h2 x (List.mem_cons_of_mem _ hx))
      simp [List.filter, hrec, Nat.succ_min_succ]

/-- Claim C2: when `update_params` is true and every micro-batch of the
buffered accumulation window carries an OOM flag in both the forward and the
backward position, the update phase discards the buffer and returns `None`
with no other side effect (meters, optimizer-step count, gradient scaling and
zeroing counts all untouched), and the caller's handling of a `None` result
leaves the global step counter unchanged. -/
theorem c2_all_oom_window_discards_and_no_side_effects
    (crit : CriterionOps) (upd : UpdateBehavior) (clip_norm : ℚ) (st : TrainerState)
    (hf : ∀ x ∈ st.buffer.ooms_fwd, x = 1)
    (hb : ∀ x ∈ st.buffer.ooms_bwd, x = 1)
    (hlf : st.buffer.ooms_fwd.length = st.buffer.logging_outputs.length)
    (hlb : st.buffer.ooms_bwd.length = st.buffer.logging_outputs.length) :
    Trainer.update_phase crit upd clip_norm st =
      Except.ok ({ st with buffer := emptyBuffer }, none)
    ∧ (∀ ps : ProgressState, after_update_result ps none = ps) := by
  have hcond : ((List.zipWith (fun a b => a + b) st.buffer.ooms_fwd st.buffer.ooms_bwd).filter
      (fun oom => decide (0 < oom))).length = st.buffer.logging_outputs.length := by
    rw [filter_pos_zip_len _ _ hf hb, hlf, hlb]
    simp
  constructor
  · unfold Trainer.update_phase
    rw [if_pos hcond]
  · intro ps
    simp [after_update_result]

theorem c2_witness_concrete_window :
    Trainer.update_phase critConst UpdateBehavior.raiseOverflow 1 stOOMWindow =
      Except.ok ({ stOOMWindow with buffer := emptyBuffer }, none)
    ∧ after_update_result initProgress none = initProgress := by
  have h := c2_all_oom_window_discards_and_no_side_effects critConst
    UpdateBehavior.raiseOverflow 1 stOOMWindow (by decide) (by decide) rfl rfl
  exact ⟨h.1, h.2 initProgress⟩

theorem update_phase_ok_buffer {crit : CriterionOps} {upd : UpdateBehavior} {cn : ℚ}
    {st st2 : TrainerState} {r : Option LogOut}
    (h : Trainer.update_phase crit upd cn st = Except.ok (st2, r)) :
    st2.buffer = emptyBuffer := by
  unfold Trainer.update_phase at h
  split at h
  · simp only [Except.ok.injEq, Prod.mk.injEq] at h
    rw [← h.1]
  · cases upd with
    | raiseOther e => simp at h
    | raiseOverflow =>
      simp only [Except.ok.injEq, Prod.mk.injEq] at h
      rw [← h.1]
    | ok grad_norm =>
      simp only [Except.ok.injEq, Prod.mk.injEq] at h
      rw [← h.1]

/-- Claim C9: every `train_step` call appends exactly one entry to each of the
four buffered stat lists, and whenever `update_params` is true and the call
returns normally the buffer is empty afterwards (cleared alike on the all-OOM
failure path, on a successful update, and on overflow recovery), so the buffer
never spans more than one accumulation window. -/
theorem c9_buffer_single_window_invariant (crit : CriterionOps) (bwd : BackwardBehavior)
    (upd : UpdateBehavior) (clip_norm : ℚ) (st st2 : TrainerState) (sample : Option Sample)
    (u : Bool) (r : Option LogOut)
    (h : Trainer.train_step crit bwd upd clip_norm st sample u = Except.ok (st2, r)) :
    (u = false → ∃ ss lo oom_fwd oom_bwd,
        st2.buffer = pushEntry st.buffer ss lo oom_fwd oom_bwd ∧
        st2.buffer.sample_sizes.length = st.buffer.sample_sizes.length + 1 ∧
        st2.buffer.logging_outputs.length = st.buffer.logging_outputs.length + 1 ∧
        st2.buffer.ooms_fwd.length = st.buffer.ooms_fwd.length + 1 ∧
        st2.buffer.ooms_bwd.length = st.buffer.ooms_bwd.length + 1)
  ∧ (u = true → st2.buffer = emptyBuffer) := by
  unfold Trainer.train_step at h
  rcases hf : Trainer.forward crit.compute sample false with e | ⟨loss, ss, lo, oomf⟩
  · rw [hf] at h
    simp at h
  · rw [hf] at h
    dsimp only at h
    rcases hbk : Trainer.backward bwd loss with e | ⟨oomb, zeroed⟩
    · rw [hbk] at h
      simp at h
    · rw [hbk] at h
      dsimp only at h
      cases u with
      | false =>
        cases zeroed <;>
          (simp only [Bool.false_eq_true, if_false, if_true, Except.ok.injEq,
             Prod.mk.injEq] at h
           obtain ⟨h1, h2⟩ := h
           subst h1
           refine ⟨fun _ => ⟨ss, lo, oomf, oomb, ?_, ?_, ?_, ?_, ?_⟩, fun hu => by cases hu⟩ <;>
             simp [pushEntry])
      | true =>
        simp only [if_true] at h
        refine ⟨fun hu => absurd hu (by decide), fun _ => ?_⟩
        cases zeroed <;> exact update_phase_ok_buffer (by simpa using h)

theorem c9_witness_concrete_buffer :
    (false = false → ∃ ss lo oom_fwd oom_bwd,
        c9_step_result.1.buffer = pushEntry initTrainer.buffer ss lo oom_fwd oom_bwd ∧
        c9_step_result.1.buffer.sample_sizes.length =
          initTrainer.buffer.sample_sizes.length + 1 ∧
        c9_step_result.1.buffer.logging_outputs.length =
          initTrainer.buffer.logging_outputs.length + 1 ∧
        c9_step_result.1.buffer.ooms_fwd.length = initTrainer.buffer.ooms_fwd.length + 1 ∧
        c9_step_result.1.buffer.ooms_bwd.length = initTrainer.buffer.ooms_bwd.length + 1)
  ∧ (false = true → c9_step_result.1.buffer = emptyBuffer) := by
  exact c9_buffer_single_window_invariant critConst BackwardBehavior.ok
    (UpdateBehavior.ok (some 1)) 1 initTrainer
    c9_step_result.1 (some ⟨5, 2⟩) false c9_step_result.2 rfl

/-- Claim C3, counterexample: with `accumulate = 1`, a successful forward and
backward followed by an `OverflowError` in the guarded update block still makes
the control loop advance the global step counter (from 0 to 1), because
`train_step` returns the aggregated logging output after the handler runs —
the overflow recovery (one `optimizer.zero_grad`, one warning) demonstrably
happened, yet the step is not counted as failed as the claim states. -/
theorem c3_overflow_still_advances_step :
    (Trainer.loop_body critConst 1 1 envOverflow initProgress initTrainer).map
        (fun s => (s.1.step, s.2.warnings, s.2.opt_zero_grads)) =
      Except.ok (1, 1, 1) := by
  rfl

/-- Claim C3 amended: if a numeric overflow occurs during the optimizer update
inside `train_step`, gradients are zeroed and a warning is logged (the
exception is not propagated), but the step is not counted as failed: the
buffer is cleared and the aggregated logging output is still returned, so the
control loop advances the global step counter for that call whenever that
aggregated output is non-empty. -/
theorem c3_overflow_recovery_and_step_advance (crit : CriterionOps) (clip_norm : ℚ)
    (st : TrainerState)
    (hnot : ((List.zipWith (fun a b => a + b) st.buffer.ooms_fwd st.buffer.ooms_bwd).filter
        (fun oom => decide (0 < oom))).length ≠ st.buffer.logging_outputs.length) :
    Trainer.update_phase crit UpdateBehavior.raiseOverflow clip_norm st =
      Except.ok ({ st with buffer := emptyBuffer,
                           opt_zero_grads := st.opt_zero_grads + 1,
                           warnings := st.warnings + 1 },
                 some (crit.aggregate st.buffer.logging_outputs))
    ∧ (∀ ps : ProgressState, crit.aggregate st.buffer.logging_outputs ≠ [] →
        after_update_result ps (some (crit.aggregate st.buffer.logging_outputs)) =
          increase_num_steps ps) := by
  constructor
  · unfold Trainer.update_phase
    rw [if_neg hnot]
  · intro ps hne
    simp [after_update_result, hne]

theorem c3_witness_concrete_overflow :
    Trainer.update_phase critConst UpdateBehavior.raiseOverflow 1 stAfterOnePlain =
      Except.ok ({ stAfterOnePlain with
                   buffer := emptyBuffer,
                   opt_zero_grads := stAfterOnePlain.opt_zero_grads + 1,
                   warnings := stAfterOnePlain.warnings + 1 },
                 some (critConst.aggregate stAfterOnePlain.buffer.logging_outputs))
    ∧ after_update_result initProgress
        (some (critConst.aggregate stAfterOnePlain.buffer.logging_outputs)) =
        increase_num_steps initProgress := by
  have h := c3_overflow_recovery_and_step_advance critConst 1 stAfterOnePlain (by decide)
  exact ⟨h.1, h.2 initProgress (by decide)⟩

theorem c1_loop_body_buffers (ps : ProgressState) (ts : TrainerState) (h : ps.step = 0) :
    Trainer.loop_body critConst 2 1 envPlain ps ts =
      Except.ok (ps,
        { ts with wps_starts := ts.wps_starts + 1,
                  buffer := pushEntry ts.buffer 10
                    (dict_update (base_logging_output (some ⟨5, 2⟩)) [("per_word_loss", 2)])
                    0 0 }) := by
  unfold Trainer.loop_body
  rw [h]
  rfl

/-- Claim C1 (code-bug demonstration): with `accumulate = 2` and a fresh run
(global step 0), the buffering test `(state.step + 1) % args.accumulate > 0`
evaluates over a step counter that only advances on successful updates, so
every call buffers and no parameter update ever happens: after any number of
fully successful micro-batches the global step counter and the count of
optimizer steps are both still 0, instead of one update every 2 calls. -/
theorem c1_accumulate_two_never_triggers_update (n : Nat) :
    (run_loop critConst 2 1 (List.replicate n envPlain) initProgress initTrainer).map
        (fun s => (s.1.step, s.2.opt_steps)) = Except.ok (0, 0) := by
  suffices hgen : ∀ (m : Nat) (ps : ProgressState) (ts : TrainerState), ps.step = 0 →
      (run_loop critConst 2 1 (List.replicate m envPlain) ps ts).map
        (fun s => (s.1.step, s.2.opt_steps)) = Except.ok (0, ts.opt_steps) by
    simpa using hgen n initProgress initTrainer rfl
  intro m
  induction m with
  | zero =>
    intro ps ts h
    simp [run_loop, List.replicate, Except.map, h]
  | succ k ih =>
    intro ps ts h
    rw [List.replicate_succ, run_loop, c1_loop_body_buffers ps ts h]
    exact ih ps _ h

/-- Claim C4, counterexample: with validation-score list `[3]`, the after-epoch
hook advances the epoch and passes metric `3` — the most recent score itself —
to the scheduler (`eval_score = -scores[-1]` is negated again at the call
site), not its negation `-3`. -/
theorem c4_metric_equals_score_not_negation :
    (after_epoch_callback { step := 7, epoch := 0, eval_scores := [3] }).2 = some (1, 3)
    ∧ ((3 : ℚ) ≠ -3) := by
  constructor
  · rfl
  · norm_num

/-- Claim C4 amended: at each epoch end the after-epoch hook advances the
epoch counter and, whenever the validation-score list is non-empty, steps the
scheduler with the metric equal to the most recent validation score itself
(the negation is applied twice and cancels out). -/
theorem c4_after_epoch_steps_with_last_score (ps : ProgressState) (h : ps.eval_scores ≠ []) :
    after_epoch_callback ps =
      (increase_epoch ps, some (ps.epoch + 1, ps.eval_scores.getLast h)) := by
  unfold after_epoch_callback
  dsimp only
  rw [show (increase_epoch ps).eval_scores = ps.eval_scores from rfl,
    List.getLast?_eq_getLast_of_ne_nil h]
  simp [increase_epoch]

theorem c4_witness_concrete_epoch_end :
    after_epoch_callback { step := 7, epoch := 4, eval_scores := [2, 3] } =
      (increase_epoch { step := 7, epoch := 4, eval_scores := [2, 3] }, some (5, 3)) := by
  exact c4_after_epoch_steps_with_last_score { step := 7, epoch := 4, eval_scores := [2, 3] }
    (by simp)

/-- Claim C5, counterexample: a negative `shuffleWindow` (here `-1`, the very
value the repository's own toy configuration passes) does not disable
shuffling: `get_train_iterator` only skips the `Shuffle` stage when
`args.shuffle == 0`, so for `-1` a `Shuffle` stage is still inserted. -/
theorem c5_negative_window_inserts_shuffle_stage :
    ((-1 : Int) < 0) ∧ (build_train_dataset (-1) 10000 false).any Stage.isShuffle = true := by
  decide

/-- Claim C5 amended: only a `shuffleWindow` of exactly zero disables
shuffling; for any nonzero value, including negative ones, a `Shuffle` stage
is inserted into the pipeline with that value as its window size. -/
theorem c5_shuffle_stage_iff_window_nonzero (shuffle : Int) (bufsize : Nat)
    (has_length_limit : Bool) :
    ((build_train_dataset shuffle bufsize has_length_limit).any Stage.isShuffle = true) ↔
      shuffle ≠ 0 := by
  by_cases hs : shuffle = 0 <;>
    cases has_length_limit <;>
      simp [build_train_dataset, hs, Stage.isShuffle]

theorem c5_witness_concrete_shuffle :
    (build_train_dataset 7 100 true).any Stage.isShuffle = true :=
  (c5_shuffle_stage_iff_window_nonzero 7 100 true).mpr (by decide)

/-- Claim C6, counterexample: a fatal (non-OOM, non-overflow) exception
reaching the outermost boundary is logged with a full trace, but the process
then exits with status 0 — the `except Exception` handler swallows the
exception and the script falls off its end — not with a non-zero status as
claimed. -/
theorem c6_fatal_exception_exits_zero :
    (top_level_main (Except.error PyExn.otherError)).1 = 0
    ∧ (top_level_main (Except.error PyExn.otherError)).2 = true := by
  decide

/-- Claim C6 amended: any exception other than recoverable OOM and numeric
overflow propagates out of `train_step` to the outermost top-level boundary,
which logs a full trace and then lets the process exit with status zero (the
handler does not re-raise and sets no non-zero exit code). -/
theorem c6_fatal_logged_trace_and_zero_exit :
    (∀ e : PyExn, top_level_main (Except.error e) = (0, true))
  ∧ (∀ (crit : CriterionOps) (bwd : BackwardBehavior) (upd : UpdateBehavior) (clip_norm : ℚ)
        (st : TrainerState) (sample : Sample) (u : Bool),
      crit.compute sample = CritResult.raise PyExn.otherError →
      Trainer.train_step crit bwd upd clip_norm st (some sample) u =
        Except.error PyExn.otherError) := by
  constructor
  · intro e
    rfl
  · intro crit bwd upd cn st sample u hc
    unfold Trainer.train_step
    simp [Trainer.forward, hc]

theorem c6_witness_concrete_fatal :
    top_level_main (Except.error PyExn.overflowError) = (0, true)
  ∧ Trainer.train_step critFatalOps BackwardBehavior.ok (UpdateBehavior.ok none) 1 initTrainer
      (some ⟨5, 2⟩) true = Except.error PyExn.otherError := by
  exact ⟨c6_fatal_logged_trace_and_zero_exit.1 PyExn.overflowError,
    c6_fatal_logged_trace_and_zero_exit.2 critFatalOps BackwardBehavior.ok
      (UpdateBehavior.ok none) 1 initTrainer ⟨5, 2⟩ true rfl⟩

/-- Claim C8: the training loop's continue predicate holds exactly when (no
minimum-learning-rate floor is configured OR the current learning rate is
strictly greater than the floor) AND the epoch counter is below the effective
max-epoch AND the global step is below the effective max-step (a missing or
zero configured bound meaning unbounded, per `args.max_epoch or math.inf`);
and the epoch driver re-evaluates this predicate before each new epoch. -/
theorem c8_stopping_predicate_characterization (args : StopConfig) (lr : ℚ)
    (ps : ProgressState) :
    (continue_predicate args lr ps = true ↔ continue_predicate_spec args lr ps)
  ∧ (∀ (run_epoch : ProgressState × ℚ → ProgressState × ℚ) (fuel : Nat)
        (s : ProgressState × ℚ),
      while_true_epochs args run_epoch (fuel + 1) s =
        if continue_predicate args s.2 s.1 then
          while_true_epochs args run_epoch fuel (run_epoch s)
        else s) := by
  constructor
  · unfold continue_predicate continue_predicate_spec
    cases hm : args.min_lr with
    | none => simp
    | some q => simp [and_assoc]
  · intro run_epoch fuel s
    rfl

theorem c8_witness_concrete_predicate :
    continue_predicate { min_lr := some 1, max_epoch := some 0, max_step := none } 2
      initProgress = true := by
  refine (c8_stopping_predicate_characterization
    { min_lr := some 1, max_epoch := some 0, max_step := none } 2 initProgress).1.mpr
    ⟨Or.inr ⟨1, rfl, by norm_num⟩, ?_, ?_⟩ <;>
    simp [or_inf, initProgress]
